import Mathlib

set_option autoImplicit false

/-
Verification of the webhook dispatch core of eldercrank/stripe-core.

The embedding follows the Python sources:
  - models.py      : StripeEvent and its event_object accessor
  - handler.py     : StripeHandler.add_event_handler, remove_event_handler,
                     process_webhook
  - manager.py     : StripeManager.add_webhook_handler, remove_webhook_handler,
                     process_webhook_payload
Python dicts are modelled as association lists with unique keys kept in
insertion order; Python exceptions become an explicit error type; callbacks
are identified by name and dispatch records the invocation trace.
-/

namespace StripeCore

/-- JSON-like values, the shape of decoded webhook payload fields. -/
inductive Json where
  | null : Json
  | bool : Bool → Json
  | num : Int → Json
  | str : String → Json
  | arr : List Json → Json
  | obj : List (String × Json) → Json

/-- Lookup in a Python dict modelled as an association list (first match). -/
def dictGet {α : Type} (d : List (String × α)) (k : String) : Option α :=
  match d with
  | [] => none
  | (k2, v) :: rest => if k2 = k then some v else dictGet rest k

/-- Python dict assignment: replace the value in place if the key exists,
append the new pair otherwise (insertion order preserved). -/
def dictSet {α : Type} (d : List (String × α)) (k : String) (v : α) :
    List (String × α) :=
  match d with
  | [] => [(k, v)]
  | (k2, v2) :: rest =>
    if k2 = k then (k2, v) :: rest else (k2, v2) :: dictSet rest k v

/-- Python dict deletion: drop every pair with the given key (on dicts with
unique keys this is exactly del d[k]). -/
def dictDel {α : Type} (d : List (String × α)) (k : String) :
    List (String × α) :=
  match d with
  | [] => []
  | (k2, v2) :: rest =>
    if k2 = k then dictDel rest k else (k2, v2) :: dictDel rest k

/-- models.py StripeEvent: pydantic model with required id, type, data and
optional api_version. -/
structure StripeEvent where
  id : String
  type : String
  data : List (String × Json)
  api_version : Option String := none

/-- models.py StripeEvent.event_object: self.data.get("object", {}). -/
def StripeEvent.event_object (e : StripeEvent) : Json :=
  match dictGet e.data "object" with
  | some v => v
  | none => Json.obj []

/-- Python exception kinds that the webhook path can surface. A pydantic
ValidationError is a subclass of ValueError and is folded into valueError. -/
inductive PyError where
  | signatureVerificationError : PyError
  | valueError : PyError
  | typeError : PyError
  | keyError : PyError
deriving DecidableEq, Repr

/-- A raw webhook delivery: the raw text the signature is computed over,
together with its JSON decoding (none when the text is not valid JSON). -/
structure Payload where
  raw : String
  body : Option (List (String × Json))

/-- Modelled from the spec: the signature scheme of the external stripe
library (spec section 4.1); the exact MAC is opaque to this repository, so a
concrete injective-in-the-secret tag stands in for it. -/
def expectedSignature (secret raw : String) : String :=
  String.append (String.append (String.append "v1=" secret) ".") raw

/-- Modelled from the spec: a header validates iff it equals the signature of
the raw payload under the shared secret (spec section 4.1). -/
def signatureMatches (raw sig_header secret : String) : Bool :=
  sig_header == expectedSignature secret raw

/-- Modelled from the spec: stripe.Webhook.construct_event, the external
collaborator called by both process_webhook and process_webhook_payload. It
first verifies the signature header against the shared secret, raising
SignatureVerificationError on mismatch, then decodes the payload as JSON,
raising ValueError when decoding fails (spec section 4.1). -/
def construct_event (payload : Payload) (sig_header : String)
    (webhook_secret : String) : Except PyError (List (String × Json)) :=
  if signatureMatches payload.raw sig_header webhook_secret then
    match payload.body with
    | some d => Except.ok d
    | none => Except.error PyError.valueError
  else
    Except.error PyError.signatureVerificationError

/-- Callbacks are identified by name; dispatch records which callback was
invoked with which argument. -/
abbrev Handler := String

/-- The _event_handlers / _webhook_handlers dict: event-type string to a
single callback. -/
abbrev Registry := List (String × Handler)

/-- handler.py StripeHandler.add_event_handler: self._event_handlers[event_name] = handler. -/
def add_event_handler (reg : Registry) (event_name : String) (h : Handler) :
    Registry :=
  dictSet reg event_name h

/-- manager.py StripeManager.add_webhook_handler: same dict assignment. -/
def add_webhook_handler (reg : Registry) (event_name : String) (h : Handler) :
    Registry :=
  dictSet reg event_name h

/-- handler.py StripeHandler.remove_event_handler: delete the key if present,
otherwise do nothing. -/
def remove_event_handler (reg : Registry) (event_name : String) : Registry :=
  match dictGet reg event_name with
  | some _ => dictDel reg event_name
  | none => reg

/-- manager.py StripeManager.remove_webhook_handler: delete the key if
present, otherwise only log a warning. -/
def remove_webhook_handler (reg : Registry) (event_name : String) : Registry :=
  match dictGet reg event_name with
  | some _ => dictDel reg event_name
  | none => reg

/-- StripeEvent(**event): pydantic validation of the decoded payload. id and
type must be strings, data must be a JSON object, api_version is an optional
string defaulting to None; extra keys are ignored; any violation raises
ValidationError, a ValueError subclass. -/
def parseStripeEvent (d : List (String × Json)) : Except PyError StripeEvent :=
  match dictGet d "id", dictGet d "type", dictGet d "data" with
  | some (Json.str i), some (Json.str t), some (Json.obj dat) =>
    (match dictGet d "api_version" with
     | none => Except.ok { id := i, type := t, data := dat, api_version := none }
     | some Json.null => Except.ok { id := i, type := t, data := dat, api_version := none }
     | some (Json.str v) => Except.ok { id := i, type := t, data := dat, api_version := some v }
     | some _ => Except.error PyError.valueError)
  | _, _, _ => Except.error PyError.valueError

/-- The value of the local variable handlers in process_webhook: the dict
get with default [] yields either the bare registered callable or an empty
list. -/
inductive HVal where
  | func : Handler → HVal
  | list : List Handler → HVal
deriving DecidableEq, Repr

/-- self._event_handlers.get(key, []) as it appears in the dispatch code. -/
def dictGetHV (reg : Registry) (k : String) : HVal :=
  match dictGet reg k with
  | some h => HVal.func h
  | none => HVal.list []

/-- Python augmented assignment on the handlers variable. A bare function on
the left has no add operator, and a bare function on the right is not
iterable, so either side being a callable raises TypeError; two lists
concatenate. -/
def pyIAdd : HVal → HVal → Except PyError (List Handler)
  | HVal.func _, _ => Except.error PyError.typeError
  | HVal.list _, HVal.func _ => Except.error PyError.typeError
  | HVal.list l, HVal.list r => Except.ok (List.append l r)

/-- Result of one webhook delivery: the registry afterwards, the invocation
trace of (callback, argument) pairs in order, and the returned event or the
uncaught exception. -/
structure WebhookOutcome where
  handlersAfter : Registry
  calls : List (Handler × Json)
  result : Except PyError StripeEvent

/-- handler.py StripeHandler.process_webhook. Signature verification and
JSON decoding run first inside a try whose except clause catches only
ValueError and SignatureVerificationError and re-raises. The logging f-string
inside the try reads event["type"] then event["id"], so a missing key raises
an uncaught KeyError there. Then StripeEvent(**event) validates outside the
try. Dispatch resolves handlers with dict gets defaulting to [], applies the
augmented add of the wildcard entry, and invokes each resolved handler with
event_model.event_object, catching every exception a handler raises. -/
def process_webhook (reg : Registry) (payload : Payload) (sig_header : String)
    (webhook_secret : String) : WebhookOutcome :=
  match construct_event payload sig_header webhook_secret with
  | Except.error e => { handlersAfter := reg, calls := [], result := Except.error e }
  | Except.ok event =>
    match dictGet event "type" with
    | none => { handlersAfter := reg, calls := [], result := Except.error PyError.keyError }
    | some _ =>
      match dictGet event "id" with
      | none => { handlersAfter := reg, calls := [], result := Except.error PyError.keyError }
      | some _ =>
        match parseStripeEvent event with
        | Except.error e => { handlersAfter := reg, calls := [], result := Except.error e }
        | Except.ok event_model =>
          match pyIAdd (dictGetHV reg event_model.type) (dictGetHV reg "*") with
          | Except.error e => { handlersAfter := reg, calls := [], result := Except.error e }
          | Except.ok hs =>
            { handlersAfter := reg
              calls := hs.map (fun h => (h, event_model.event_object))
              result := Except.ok event_model }

/-- manager.py StripeManager.process_webhook_payload: the same pipeline as
process_webhook with the secret passed as an argument and the two except
clauses split, which does not change which exceptions are re-raised. -/
def process_webhook_payload (reg : Registry) (payload : Payload)
    (sig_header : String) (webhook_secret : String) : WebhookOutcome :=
  match construct_event payload sig_header webhook_secret with
  | Except.error e => { handlersAfter := reg, calls := [], result := Except.error e }
  | Except.ok event =>
    match dictGet event "type" with
    | none => { handlersAfter := reg, calls := [], result := Except.error PyError.keyError }
    | some _ =>
      match dictGet event "id" with
      | none => { handlersAfter := reg, calls := [], result := Except.error PyError.keyError }
      | some _ =>
        match parseStripeEvent event with
        | Except.error e => { handlersAfter := reg, calls := [], result := Except.error e }
        | Except.ok event_model =>
          match pyIAdd (dictGetHV reg event_model.type) (dictGetHV reg "*") with
          | Except.error e => { handlersAfter := reg, calls := [], result := Except.error e }
          | Except.ok hs =>
            { handlersAfter := reg
              calls := hs.map (fun h => (h, event_model.event_object))
              result := Except.ok event_model }

/-- A well-formed sample decoded body used when exercising the theorems. -/
def goodBody : List (String × Json) :=
  [("id", Json.str "evt_1"),
   ("type", Json.str "payment_intent.succeeded"),
   ("data", Json.obj [("object", Json.obj [("id", Json.str "pi_1")])])]

/-- A sample delivery whose raw text decodes to goodBody. -/
def goodPayload : Payload :=
  { raw := "rawbody", body := some goodBody }

/-- The header that validates goodPayload under the secret whsec_1. -/
def goodHeader : String :=
  expectedSignature "whsec_1" "rawbody"

/-- The event that parsing goodBody yields. -/
def goodEvent : StripeEvent :=
  { id := "evt_1"
    type := "payment_intent.succeeded"
    data := [("object", Json.obj [("id", Json.str "pi_1")])]
    api_version := none }

/-- Both façades run the same pipeline; the definitions coincide. -/
theorem process_webhook_payload_eq (reg : Registry) (payload : Payload)
    (sig_header : String) (webhook_secret : String) :
    process_webhook_payload reg payload sig_header webhook_secret =
      process_webhook reg payload sig_header webhook_secret := rfl

/-- A decoded structure that pydantic accepts carries its type and id as
string entries, so the logging line of process_webhook finds both keys. -/
theorem parseStripeEvent_ok_fields (d : List (String × Json)) (ev : StripeEvent)
    (h : parseStripeEvent d = Except.ok ev) :
    dictGet d "type" = some (Json.str ev.type) ∧
      dictGet d "id" = some (Json.str ev.id) := by
  unfold parseStripeEvent at h
  split at h
  · split at h <;> simp_all <;> (subst h; exact ⟨rfl, rfl⟩)
  · simp_all

/-- Reduction of process_webhook on a delivery that verifies and parses:
everything after parsing is decided by the augmented add of the resolved
handler values. -/
theorem process_webhook_verified (reg : Registry) (payload : Payload)
    (sig_header : String) (webhook_secret : String)
    (event : List (String × Json)) (ev : StripeEvent)
    (hce : construct_event payload sig_header webhook_secret = Except.ok event)
    (hpe : parseStripeEvent event = Except.ok ev) :
    process_webhook reg payload sig_header webhook_secret =
      (match pyIAdd (dictGetHV reg ev.type) (dictGetHV reg "*") with
       | Except.error e =>
         { handlersAfter := reg, calls := [], result := Except.error e }
       | Except.ok hs =>
         { handlersAfter := reg
           calls := hs.map (fun h => (h, ev.event_object))
           result := Except.ok ev }) := by
  obtain ⟨htype, hid⟩ := parseStripeEvent_ok_fields event ev hpe
  unfold process_webhook
  simp only [hce, htype, hid, hpe]

/-- Deleting a key makes it absent. -/
theorem dictGet_dictDel_self {α : Type} (d : List (String × α)) (k : String) :
    dictGet (dictDel d k) k = none := by
  induction d with
  | nil => rfl
  | cons p rest ih =>
    obtain ⟨k2, v⟩ := p
    by_cases h : k2 = k
    · simpa [dictDel, h] using ih
    · simpa [dictDel, dictGet, h] using ih

/-- Deleting a key leaves every other key unchanged. -/
theorem dictGet_dictDel_other {α : Type} (d : List (String × α)) (k k2 : String)
    (h : ¬ k2 = k) : dictGet (dictDel d k) k2 = dictGet d k2 := by
  induction d with
  | nil => rfl
  | cons p rest ih =>
    obtain ⟨k3, v⟩ := p
    by_cases h3 : k3 = k
    · have hne : ¬ k = k2 := fun hc => h hc.symm
      simp [dictDel, dictGet, h3, hne, ih]
    · simp [dictDel, dictGet, h3, ih]

/-- C1: for every payload, signature header and shared secret under which the
signature does not validate, process_webhook (and the manager variant) raises
SignatureVerificationError, invokes no registered callback and returns no
event, and that error kind is distinct from the malformed-payload kind. -/
theorem C1_signature_mismatch (reg : Registry) (payload : Payload)
    (sig_header : String) (webhook_secret : String)
    (hsig : signatureMatches payload.raw sig_header webhook_secret = false) :
    process_webhook reg payload sig_header webhook_secret =
      { handlersAfter := reg, calls := []
        result := Except.error PyError.signatureVerificationError } ∧
    process_webhook_payload reg payload sig_header webhook_secret =
      { handlersAfter := reg, calls := []
        result := Except.error PyError.signatureVerificationError } ∧
    PyError.signatureVerificationError ≠ PyError.valueError := by
  have hc : construct_event payload sig_header webhook_secret =
      Except.error PyError.signatureVerificationError := by
    unfold construct_event
    rw [hsig]
    rfl
  refine ⟨?_, ?_, by decide⟩
  · unfold process_webhook
    rw [hc]
  · rw [process_webhook_payload_eq]
    unfold process_webhook
    rw [hc]

/-- Witness for C1 at a concrete forged delivery. -/
theorem C1_witness :
    process_webhook [("payment_intent.succeeded", "cbA")] goodPayload
        "bad_header" "whsec_1" =
      { handlersAfter := [("payment_intent.succeeded", "cbA")], calls := []
        result := Except.error PyError.signatureVerificationError } ∧
    process_webhook_payload [("payment_intent.succeeded", "cbA")] goodPayload
        "bad_header" "whsec_1" =
      { handlersAfter := [("payment_intent.succeeded", "cbA")], calls := []
        result := Except.error PyError.signatureVerificationError } ∧
    PyError.signatureVerificationError ≠ PyError.valueError :=
  C1_signature_mismatch [("payment_intent.succeeded", "cbA")] goodPayload
    "bad_header" "whsec_1" (by rfl)

/-- C2: once the delivery verifies and parses, a registry that maps the exact
event type, or leaves it unmapped while mapping the wildcard, makes
process_webhook raise an uncaught TypeError at the wildcard-append step with
no callback invoked; the invocation loop is reached only with an empty
resolved set. -/
theorem C2_wildcard_append_raises (reg : Registry) (payload : Payload)
    (sig_header : String) (webhook_secret : String)
    (event : List (String × Json)) (ev : StripeEvent)
    (hce : construct_event payload sig_header webhook_secret = Except.ok event)
    (hpe : parseStripeEvent event = Except.ok ev) :
    (((dictGet reg ev.type).isSome = true ∨
        (dictGet reg ev.type = none ∧ (dictGet reg "*").isSome = true)) →
      process_webhook reg payload sig_header webhook_secret =
        { handlersAfter := reg, calls := []
          result := Except.error PyError.typeError }) ∧
    ((process_webhook reg payload sig_header webhook_secret).result =
        Except.ok ev →
      dictGet reg ev.type = none ∧ dictGet reg "*" = none ∧
        (process_webhook reg payload sig_header webhook_secret).calls = []) := by
  have hred := process_webhook_verified reg payload sig_header webhook_secret
    event ev hce hpe
  constructor
  · intro hcond
    rw [hred]
    rcases hcond with hx | ⟨hnone, hw⟩
    · obtain ⟨cb, hcb⟩ := Option.isSome_iff_exists.mp hx
      simp [dictGetHV, hcb, pyIAdd]
    · obtain ⟨cb, hcb⟩ := Option.isSome_iff_exists.mp hw
      simp [dictGetHV, hnone, hcb, pyIAdd]
  · intro hok
    cases hx : dictGet reg ev.type with
    | some cb =>
      rw [hred] at hok
      simp [dictGetHV, hx, pyIAdd] at hok
    | none =>
      cases hw : dictGet reg "*" with
      | some cb =>
        rw [hred] at hok
        simp [dictGetHV, hx, hw, pyIAdd] at hok
      | none =>
        refine ⟨rfl, rfl, ?_⟩
        rw [hred]
        simp [dictGetHV, hx, hw, pyIAdd]

/-- Witness for C2 at a concrete delivery with an exact-type handler. -/
theorem C2_witness :
    process_webhook [("payment_intent.succeeded", "cbA")] goodPayload
        goodHeader "whsec_1" =
      { handlersAfter := [("payment_intent.succeeded", "cbA")], calls := []
        result := Except.error PyError.typeError } :=
  (C2_wildcard_append_raises [("payment_intent.succeeded", "cbA")] goodPayload
      goodHeader "whsec_1" goodBody goodEvent (by rfl) (by rfl)).1
    (Or.inl (by rfl))

/-- C3: the claim says a verified well-formed delivery of a registered type
invokes exactly the registered callback once with data object as argument.
The code instead raises TypeError at the wildcard-append step and invokes
nothing; only the overwrite-on-reregistration half of the claim holds. This
theorem evaluates the embedded code at the failing input. -/
theorem C3_exact_handler_not_invoked :
    process_webhook [("payment_intent.succeeded", "cbA")] goodPayload
        goodHeader "whsec_1" =
      { handlersAfter := [("payment_intent.succeeded", "cbA")], calls := []
        result := Except.error PyError.typeError } ∧
    add_event_handler
        (add_event_handler [] "payment_intent.succeeded" "cbA")
        "payment_intent.succeeded" "cbB" =
      [("payment_intent.succeeded", "cbB")] :=
  ⟨rfl, rfl⟩

/-- C4: the claim says a wildcard callback is invoked for every verified
event, after the exact-type callback. The code raises TypeError instead,
both with a wildcard-only registry and with both keys mapped. This theorem
evaluates the embedded code at the failing inputs. -/
theorem C4_wildcard_handler_not_invoked :
    process_webhook [("*", "cbW")] goodPayload goodHeader "whsec_1" =
      { handlersAfter := [("*", "cbW")], calls := []
        result := Except.error PyError.typeError } ∧
    process_webhook [("payment_intent.succeeded", "cbA"), ("*", "cbW")]
        goodPayload goodHeader "whsec_1" =
      { handlersAfter := [("payment_intent.succeeded", "cbA"), ("*", "cbW")]
        calls := [], result := Except.error PyError.typeError } :=
  ⟨rfl, rfl⟩

/-- C5: the claim says a raising callback is isolated so the remaining
resolved callback still runs and the event is still returned. The code never
reaches any callback when the event type or the wildcard resolves: it raises
TypeError first, so the isolating loop is unreachable with a nonempty
resolved set. This theorem evaluates the embedded code at the failing
input. -/
theorem C5_isolation_loop_unreachable :
    process_webhook [("payment_intent.succeeded", "cbRaising"), ("*", "cbSecond")]
        goodPayload goodHeader "whsec_1" =
      { handlersAfter :=
          [("payment_intent.succeeded", "cbRaising"), ("*", "cbSecond")]
        calls := [], result := Except.error PyError.typeError } :=
  rfl

/-- C6: the claim says a verified payload missing id, type or data fails
with a ValueError-family error. Missing data does raise the pydantic
ValidationError, but a missing type or id raises an uncaught KeyError from
the logging f-string inside the try block before validation, an error kind
outside the ValueError family. This theorem evaluates the embedded code at
the three inputs. -/
theorem C6_missing_field_error_kinds :
    process_webhook []
        { raw := "r2", body := some [("id", Json.str "e"), ("data", Json.obj [])] }
        (expectedSignature "whsec_1" "r2") "whsec_1" =
      { handlersAfter := [], calls := []
        result := Except.error PyError.keyError } ∧
    process_webhook []
        { raw := "r3", body := some [("type", Json.str "t"), ("data", Json.obj [])] }
        (expectedSignature "whsec_1" "r3") "whsec_1" =
      { handlersAfter := [], calls := []
        result := Except.error PyError.keyError } ∧
    process_webhook []
        { raw := "r4", body := some [("id", Json.str "e"), ("type", Json.str "t")] }
        (expectedSignature "whsec_1" "r4") "whsec_1" =
      { handlersAfter := [], calls := []
        result := Except.error PyError.valueError } ∧
    PyError.keyError ≠ PyError.valueError :=
  ⟨rfl, rfl, rfl, by decide⟩

/-- C7: a verified, well-formed delivery whose type has no registered
callback and with no wildcard registered completes successfully, invoking
nothing and returning the event. -/
theorem C7_no_handlers_success (reg : Registry) (payload : Payload)
    (sig_header : String) (webhook_secret : String)
    (event : List (String × Json)) (ev : StripeEvent)
    (hce : construct_event payload sig_header webhook_secret = Except.ok event)
    (hpe : parseStripeEvent event = Except.ok ev)
    (hx : dictGet reg ev.type = none) (hw : dictGet reg "*" = none) :
    process_webhook reg payload sig_header webhook_secret =
      { handlersAfter := reg, calls := [], result := Except.ok ev } := by
  rw [process_webhook_verified reg payload sig_header webhook_secret event ev
    hce hpe]
  simp [dictGetHV, hx, hw, pyIAdd]

/-- Witness for C7 at a concrete delivery with an unrelated registration. -/
theorem C7_witness :
    process_webhook [("other.event", "cbA")] goodPayload goodHeader
        "whsec_1" =
      { handlersAfter := [("other.event", "cbA")], calls := []
        result := Except.ok goodEvent } :=
  C7_no_handlers_success [("other.event", "cbA")] goodPayload goodHeader
    "whsec_1" goodBody goodEvent (by rfl) (by rfl) (by rfl) (by rfl)

/-- C8: event_object returns the value under the object key of data when
present and the empty mapping when absent, and the two concrete round trips
of the claim hold. -/
theorem C8_event_object_spec (e : StripeEvent) (v : Json) :
    (dictGet e.data "object" = some v → e.event_object = v) ∧
    (dictGet e.data "object" = none → e.event_object = Json.obj []) ∧
    StripeEvent.event_object
        { id := "evt_1", type := "payment_intent.succeeded"
          data := [("object", Json.obj [("id", Json.str "pi_1")])] } =
      Json.obj [("id", Json.str "pi_1")] ∧
    StripeEvent.event_object
        { id := "evt_1", type := "payment_intent.succeeded", data := [] } =
      Json.obj [] := by
  refine ⟨?_, ?_, rfl, rfl⟩
  · intro h
    unfold StripeEvent.event_object
    rw [h]
  · intro h
    unfold StripeEvent.event_object
    rw [h]

/-- Witness for C8 at a concrete event. -/
theorem C8_witness :
    StripeEvent.event_object
        { id := "e", type := "t", data := [("object", Json.str "x")] } =
      Json.str "x" :=
  (C8_event_object_spec
      { id := "e", type := "t", data := [("object", Json.str "x")] }
      (Json.str "x")).1 (by rfl)

/-- C9: unregistering a never-registered event type is a no-op that leaves
the registry unchanged in both facades, and unregistering a registered type
removes exactly that entry, leaving every other key untouched. -/
theorem C9_unregister_semantics (reg : Registry) (k : String) :
    (dictGet reg k = none →
      remove_event_handler reg k = reg ∧ remove_webhook_handler reg k = reg) ∧
    dictGet (remove_event_handler reg k) k = none ∧
    (∀ k2, ¬ k2 = k →
      dictGet (remove_event_handler reg k) k2 = dictGet reg k2) ∧
    remove_webhook_handler reg k = remove_event_handler reg k := by
  refine ⟨?_, ?_, ?_, rfl⟩
  · intro h
    constructor
    · unfold remove_event_handler
      rw [h]
    · unfold remove_webhook_handler
      rw [h]
  · cases hk : dictGet reg k with
    | none =>
      unfold remove_event_handler
      rw [hk]
      exact hk
    | some cb =>
      unfold remove_event_handler
      rw [hk]
      exact dictGet_dictDel_self reg k
  · intro k2 hne
    cases hk : dictGet reg k with
    | none =>
      unfold remove_event_handler
      rw [hk]
    | some cb =>
      unfold remove_event_handler
      rw [hk]
      exact dictGet_dictDel_other reg k k2 hne

/-- Witness for C9 at concrete registries. -/
theorem C9_witness :
    remove_event_handler [("a.event", "cbA")] "b.event" = [("a.event", "cbA")] ∧
    dictGet (remove_event_handler [("a.event", "cbA")] "a.event") "a.event" =
      none ∧
    dictGet
        (remove_event_handler [("a.event", "cbA"), ("c.event", "cbC")]
          "a.event") "c.event" =
      some "cbC" :=
  ⟨((C9_unregister_semantics [("a.event", "cbA")] "b.event").1 (by rfl)).1,
   (C9_unregister_semantics [("a.event", "cbA")] "a.event").2.1,
   ((C9_unregister_semantics [("a.event", "cbA"), ("c.event", "cbC")]
       "a.event").2.2.1 "c.event" (by decide)).trans (by rfl)⟩

/-- C10: for every starting registry and every delivery, whether it returns
an event or raises, the handler registry after process_webhook (and the
manager variant) equals the registry before: dispatch never mutates it. -/
theorem C10_registry_unchanged (reg : Registry) (payload : Payload)
    (sig_header : String) (webhook_secret : String) :
    (process_webhook reg payload sig_header webhook_secret).handlersAfter =
      reg ∧
    (process_webhook_payload reg payload sig_header
        webhook_secret).handlersAfter = reg := by
  constructor
  · unfold process_webhook
    repeat (first | rfl | split)
  · rw [process_webhook_payload_eq]
    unfold process_webhook
    repeat (first | rfl | split)

end StripeCore
